import Mathlib

/-!
Shallow embedding of the perla-metro-stations-service repository
(`src/index.js`, `src/database.js`).

`src/index.js` contains two variants of the Express application,
concatenated in the file:

* Variant 1 (first half): uses `getPoolConnection` from `database.js`,
  an `authorizeAdmin` middleware on create/list/update/delete,
  a numeric `type_id` column validated against `VALID_TYPE_IDS = [1, 2, 3]`.
* Variant 2 (second half): uses a fresh `getConnection` per request,
  no authorization middleware on any route, a `type` column whose value
  is not validated beyond truthiness (a `TODO` marks the missing check).

Request bodies are JavaScript values; we model the fragment of JavaScript
values the handlers inspect (strings, numbers, booleans, null, undefined),
JavaScript truthiness, `typeof x === 'boolean'`, and the strict
(SameValueZero) membership test of `Array.prototype.includes`.

The stations table is a list of rows plus the AUTO_INCREMENT counter.
The parameterized comparison `WHERE id = ?` compares the integer `id`
column with a string parameter; MySQL coerces the string to a number, so
we model the match as: the parameter parses to exactly the row's id
(a non-numeric parameter such as "abc" matches no row).

Each handler is a function of the request data, the database state, and
two oracles: `acquireOk` (does connection acquisition succeed) and
`queryOk` (does the SQL statement succeed).  It returns the HTTP
response, the new database state, and how many connections were
acquired and released on that path, mirroring the `try`/`catch`/`finally`
structure of the source.
-/

namespace StationsService

/-- The fragment of JavaScript runtime values the handlers inspect. -/
inductive JsVal where
  | vStr (s : String)
  | vNum (n : Int)
  | vBool (b : Bool)
  | vNull
  | vUndefined
deriving DecidableEq

/-- JavaScript truthiness, as used by the `!name || !location || ...` guards:
the empty string, 0, `false`, `null` and `undefined` are falsy. -/
def JsVal.truthy : JsVal → Bool
  | .vStr s => s ≠ ""
  | .vNum n => n != 0
  | .vBool b => b
  | .vNull => false
  | .vUndefined => false

/-- `typeof v === 'boolean'` (the `is_active` check of the update handlers). -/
def JsVal.isBoolean : JsVal → Bool
  | .vBool _ => true
  | _ => false

/-- Extract the boolean from a value known to be a boolean. -/
def JsVal.asBool : JsVal → Bool
  | .vBool b => b
  | _ => false

/-- `const VALID_TYPE_IDS = [1, 2, 3]` (index.js line 16, variant 1). -/
def VALID_TYPE_IDS : List JsVal := [.vNum 1, .vNum 2, .vNum 3]

/-- A row of the `stations` table in variant 1
(`id, name, location, type_id, is_active`). -/
structure Station where
  id : Nat
  name : JsVal
  location : JsVal
  type_id : JsVal
  is_active : Bool
deriving DecidableEq

/-- The `stations` table (variant 1): its rows in insertion order and the
AUTO_INCREMENT counter for the next generated id. -/
structure DB where
  rows : List Station
  nextId : Nat
deriving DecidableEq

/-- Well-formedness of a table state reachable through the service: every
row id was generated before the current counter, and ids are unique. -/
def DB.wf (db : DB) : Prop :=
  (∀ s ∈ db.rows, s.id < db.nextId) ∧
    db.rows.Pairwise (fun a b => a.id ≠ b.id)

instance (db : DB) : Decidable db.wf := by
  unfold DB.wf
  infer_instance

/-- Numeric value of a decimal digit character. -/
def digitVal? (c : Char) : Option Nat :=
  if c = '0' then some 0 else if c = '1' then some 1 else if c = '2' then some 2
  else if c = '3' then some 3 else if c = '4' then some 4 else if c = '5' then some 5
  else if c = '6' then some 6 else if c = '7' then some 7 else if c = '8' then some 8
  else if c = '9' then some 9 else none

/-- Accumulating decimal parser over a character list; fails on any
non-digit character. -/
def parseDigits (acc : Nat) : List Char → Option Nat
  | [] => some acc
  | c :: cs =>
    match digitVal? c with
    | some d => parseDigits (acc * 10 + d) cs
    | none => none

/-- The numeric reading of a route parameter: a nonempty all-digit string
parses to its decimal value; anything else (for example "abc") has no
numeric reading. -/
def strToNat? (s : String) : Option Nat :=
  match s.data with
  | [] => none
  | cs => parseDigits 0 cs

/-- The SQL comparison `id = ?` between the integer `id` column and the
string route parameter: MySQL coerces the parameter to a number, so the
row matches exactly when the parameter is the decimal form of its id;
a non-numeric parameter matches no row. -/
def idMatches (rowId : Nat) (idParam : String) : Bool :=
  strToNat? idParam == some rowId

/-- HTTP responses the handlers produce (parameterized by the row type so
both variants can reuse it). -/
inductive Resp (σ : Type) where
  | created (stationId : Nat) (name location : JsVal)
  | okList (stations : List σ)
  | okStation (station : σ)
  | okMsg (message : String)
  | badRequest (error : String)
  | unauthorized (error : String)
  | notFound (error : String)
  | serverError (error : String)
deriving DecidableEq

/-- The HTTP status code of a response. -/
def Resp.status {σ : Type} : Resp σ → Nat
  | .created _ _ _ => 201
  | .okList _ => 200
  | .okStation _ => 200
  | .okMsg _ => 200
  | .badRequest _ => 400
  | .unauthorized _ => 401
  | .notFound _ => 404
  | .serverError _ => 500

/-- Outcome of running one handler: the response, the resulting table
state, and how many pool connections were acquired and released on the
path that was taken. -/
structure Exec (σ δ : Type) where
  resp : Resp σ
  db : δ
  acquired : Nat
  released : Nat
deriving DecidableEq

/-- Every acquired connection is released, and at most one connection is
used per request. -/
def Exec.balanced {σ δ : Type} (e : Exec σ δ) : Prop :=
  e.released = e.acquired ∧ e.acquired ≤ 1

/-- Body of `POST /api/stations` in variant 1: `{ name, location, type_id }`;
an absent field is `undefined`. -/
structure CreateBody where
  name : JsVal
  location : JsVal
  type_id : JsVal
deriving DecidableEq

/-- Body of `PUT /api/stations/:id` in variant 1:
`{ name, location, type_id, is_active }`. -/
structure UpdateBody where
  name : JsVal
  location : JsVal
  type_id : JsVal
  is_active : JsVal
deriving DecidableEq

def authDeniedMsg : String :=
  "Acceso denegado. Se requiere autenticacion de Administrador."

def createInvalidMsg : String :=
  "Datos de entrada invalidos. Asegurese de incluir name, location y un type_id valido (1, 2, o 3)."

def internalErrMsg : String := "Error interno del servidor."

def listErrMsg : String :=
  "Error interno del servidor al consultar estaciones."

def getNotFoundMsg (idParam : String) : String :=
  "Estacion con ID " ++ idParam ++ " no encontrada o inactiva."

def updateInvalidMsg : String :=
  "Datos de entrada invalidos para la actualizacion."

def updateNotFoundMsg (idParam : String) : String :=
  "Estacion con ID " ++ idParam ++ " no encontrada."

def updateOkMsg (idParam : String) : String :=
  "Estacion ID " ++ idParam ++ " actualizada exitosamente."

def deleteNotFoundMsg (idParam : String) : String :=
  "Estacion con ID " ++ idParam ++ " no encontrada o ya estaba inactiva."

def deleteOkMsg (idParam : String) : String :=
  "Estacion ID " ++ idParam ++ " desactivada (Soft Delete) exitosamente."

/-- `POST /api/stations`, variant 1 (index.js lines 46-78).
`authorizeAdmin` rejects the request with 401 when no authorization
header is present; then the guard
`!name || !location || !type_id || !VALID_TYPE_IDS.includes(type_id)`
rejects with 400 before any connection is acquired; otherwise one
connection is acquired, the INSERT runs with `is_active = true` and the
generated id, and the connection is released in `finally`. -/
def createStation (hasAuth acquireOk queryOk : Bool) (b : CreateBody)
    (db : DB) : Exec Station DB :=
  if !hasAuth then
    ⟨.unauthorized authDeniedMsg, db, 0, 0⟩
  else if !b.name.truthy || !b.location.truthy || !b.type_id.truthy
      || !(VALID_TYPE_IDS.contains b.type_id) then
    ⟨.badRequest createInvalidMsg, db, 0, 0⟩
  else if !acquireOk then
    ⟨.serverError internalErrMsg, db, 0, 0⟩
  else if !queryOk then
    ⟨.serverError internalErrMsg, db, 1, 1⟩
  else
    ⟨.created db.nextId b.name b.location,
     ⟨db.rows ++ [⟨db.nextId, b.name, b.location, b.type_id, true⟩],
      db.nextId + 1⟩, 1, 1⟩

/-- `GET /api/stations`, variant 1 (index.js lines 85-100):
`SELECT ... FROM stations WHERE is_active = TRUE`, behind `authorizeAdmin`. -/
def listActive (hasAuth acquireOk queryOk : Bool) (db : DB) :
    Exec Station DB :=
  if !hasAuth then
    ⟨.unauthorized authDeniedMsg, db, 0, 0⟩
  else if !acquireOk then
    ⟨.serverError listErrMsg, db, 0, 0⟩
  else if !queryOk then
    ⟨.serverError listErrMsg, db, 1, 1⟩
  else
    ⟨.okList (db.rows.filter (fun s => s.is_active)), db, 1, 1⟩

/-- `GET /api/stations/:id`, variant 1 (index.js lines 107-127): no
authorization middleware; `SELECT ... WHERE id = ? AND is_active = TRUE`,
404 when the result set is empty, otherwise 200 with the first row. -/
def getActiveById (acquireOk queryOk : Bool) (idParam : String) (db : DB) :
    Exec Station DB :=
  if !acquireOk then
    ⟨.serverError internalErrMsg, db, 0, 0⟩
  else if !queryOk then
    ⟨.serverError internalErrMsg, db, 1, 1⟩
  else
    match db.rows.find? (fun s => idMatches s.id idParam && s.is_active) with
    | none => ⟨.notFound (getNotFoundMsg idParam), db, 1, 1⟩
    | some s => ⟨.okStation s, db, 1, 1⟩

/-- Effect of the variant-1 UPDATE statement
`SET name = ?, location = ?, type_id = ?, is_active = ? WHERE id = ?`
on a single row. -/
def applyUpdate (idParam : String) (b : UpdateBody) (s : Station) : Station :=
  if idMatches s.id idParam then
    { s with name := b.name, location := b.location, type_id := b.type_id,
             is_active := b.is_active.asBool }
  else s

/-- `PUT /api/stations/:id`, variant 1 (index.js lines 134-164), behind
`authorizeAdmin`: the guard
`!name || !location || !type_id || typeof is_active !== 'boolean' ||
!VALID_TYPE_IDS.includes(type_id)` rejects with 400; the UPDATE matches
on `id` alone (active and inactive rows alike); `affectedRows === 0`
(no row matched) yields 404, otherwise 200. -/
def updateStation (hasAuth acquireOk queryOk : Bool) (idParam : String)
    (b : UpdateBody) (db : DB) : Exec Station DB :=
  if !hasAuth then
    ⟨.unauthorized authDeniedMsg, db, 0, 0⟩
  else if !b.name.truthy || !b.location.truthy || !b.type_id.truthy
      || !b.is_active.isBoolean || !(VALID_TYPE_IDS.contains b.type_id) then
    ⟨.badRequest updateInvalidMsg, db, 0, 0⟩
  else if !acquireOk then
    ⟨.serverError internalErrMsg, db, 0, 0⟩
  else if !queryOk then
    ⟨.serverError internalErrMsg, db, 1, 1⟩
  else if db.rows.countP (fun s => idMatches s.id idParam) == 0 then
    ⟨.notFound (updateNotFoundMsg idParam), db, 1, 1⟩
  else
    ⟨.okMsg (updateOkMsg idParam),
     ⟨db.rows.map (applyUpdate idParam b), db.nextId⟩, 1, 1⟩

/-- Effect of the variant-1 soft-delete statement
`UPDATE stations SET is_active = FALSE WHERE id = ? AND is_active = TRUE`
on a single row. -/
def deactivate (idParam : String) (s : Station) : Station :=
  if idMatches s.id idParam && s.is_active then { s with is_active := false }
  else s

/-- `DELETE /api/stations/:id`, variant 1 (index.js lines 171-192), behind
`authorizeAdmin`: the UPDATE matches only an active row with the given id;
`affectedRows === 0` (no such row, or it was already inactive) yields 404,
otherwise 200. -/
def softDelete (hasAuth acquireOk queryOk : Bool) (idParam : String)
    (db : DB) : Exec Station DB :=
  if !hasAuth then
    ⟨.unauthorized authDeniedMsg, db, 0, 0⟩
  else if !acquireOk then
    ⟨.serverError internalErrMsg, db, 0, 0⟩
  else if !queryOk then
    ⟨.serverError internalErrMsg, db, 1, 1⟩
  else if db.rows.countP (fun s => idMatches s.id idParam && s.is_active)
      == 0 then
    ⟨.notFound (deleteNotFoundMsg idParam), db, 1, 1⟩
  else
    ⟨.okMsg (deleteOkMsg idParam),
     ⟨db.rows.map (deactivate idParam), db.nextId⟩, 1, 1⟩

/-- A row of the `stations` table in variant 2
(`id, name, location, type, is_active`): here `type` is a free value
(the variant inserts whatever string the client sent). -/
structure Station2 where
  id : Nat
  name : JsVal
  location : JsVal
  type : JsVal
  is_active : Bool
deriving DecidableEq

/-- The `stations` table used by variant 2. -/
structure DB2 where
  rows : List Station2
  nextId : Nat
deriving DecidableEq

/-- Body of `POST /api/stations` in variant 2: `{ name, location, type }`. -/
structure CreateBody2 where
  name : JsVal
  location : JsVal
  type : JsVal
deriving DecidableEq

/-- Body of `PUT /api/stations/:id` in variant 2. -/
structure UpdateBody2 where
  name : JsVal
  location : JsVal
  type : JsVal
  is_active : JsVal
deriving DecidableEq

def createMissingMsg2 : String :=
  "Faltan campos requeridos: name, location, type."

def createErrMsg2 : String :=
  "Error interno del servidor al crear la estacion."

def getErrMsg2 : String :=
  "Error interno del servidor al consultar la estacion."

def updateInvalidMsg2 : String :=
  "Faltan campos requeridos o el estado (is_active) no es booleano."

def updateErrMsg2 : String :=
  "Error interno del servidor al actualizar la estacion."

def deleteErrMsg2 : String :=
  "Error interno del servidor al desactivar la estacion."

/-- `POST /api/stations`, variant 2 (index.js second half): no
authorization middleware is registered, so the handler consumes no
authorization data at all; the guard checks only `!name || !location ||
!type` — the `type` value itself is not validated (the source carries
`TODO: Anadir validacion del type`), so any truthy value is inserted. -/
def createStation2 (acquireOk queryOk : Bool) (b : CreateBody2)
    (db : DB2) : Exec Station2 DB2 :=
  if !b.name.truthy || !b.location.truthy || !b.type.truthy then
    ⟨.badRequest createMissingMsg2, db, 0, 0⟩
  else if !acquireOk then
    ⟨.serverError createErrMsg2, db, 0, 0⟩
  else if !queryOk then
    ⟨.serverError createErrMsg2, db, 1, 1⟩
  else
    ⟨.created db.nextId b.name b.location,
     ⟨db.rows ++ [⟨db.nextId, b.name, b.location, b.type, true⟩],
      db.nextId + 1⟩, 1, 1⟩

/-- `GET /api/stations`, variant 2: no authorization middleware (a source
comment notes one should be added). -/
def listActive2 (acquireOk queryOk : Bool) (db : DB2) : Exec Station2 DB2 :=
  if !acquireOk then
    ⟨.serverError listErrMsg, db, 0, 0⟩
  else if !queryOk then
    ⟨.serverError listErrMsg, db, 1, 1⟩
  else
    ⟨.okList (db.rows.filter (fun s => s.is_active)), db, 1, 1⟩

/-- `GET /api/stations/:id`, variant 2: same query as variant 1. -/
def getActiveById2 (acquireOk queryOk : Bool) (idParam : String)
    (db : DB2) : Exec Station2 DB2 :=
  if !acquireOk then
    ⟨.serverError getErrMsg2, db, 0, 0⟩
  else if !queryOk then
    ⟨.serverError getErrMsg2, db, 1, 1⟩
  else
    match db.rows.find? (fun s => idMatches s.id idParam && s.is_active) with
    | none => ⟨.notFound (getNotFoundMsg idParam), db, 1, 1⟩
    | some s => ⟨.okStation s, db, 1, 1⟩

/-- Effect of the variant-2 UPDATE statement on a single row. -/
def applyUpdate2 (idParam : String) (b : UpdateBody2) (s : Station2) :
    Station2 :=
  if idMatches s.id idParam then
    { s with name := b.name, location := b.location, type := b.type,
             is_active := b.is_active.asBool }
  else s

/-- `PUT /api/stations/:id`, variant 2: no authorization middleware; the
guard checks truthiness of the fields and that `is_active` is a boolean,
but does not validate `type` against any closed set. -/
def updateStation2 (acquireOk queryOk : Bool) (idParam : String)
    (b : UpdateBody2) (db : DB2) : Exec Station2 DB2 :=
  if !b.name.truthy || !b.location.truthy || !b.type.truthy
      || !b.is_active.isBoolean then
    ⟨.badRequest updateInvalidMsg2, db, 0, 0⟩
  else if !acquireOk then
    ⟨.serverError updateErrMsg2, db, 0, 0⟩
  else if !queryOk then
    ⟨.serverError updateErrMsg2, db, 1, 1⟩
  else if db.rows.countP (fun s => idMatches s.id idParam) == 0 then
    ⟨.notFound (updateNotFoundMsg idParam), db, 1, 1⟩
  else
    ⟨.okMsg (updateOkMsg idParam),
     ⟨db.rows.map (applyUpdate2 idParam b), db.nextId⟩, 1, 1⟩

/-- Effect of the variant-2 soft-delete statement on a single row. -/
def deactivate2 (idParam : String) (s : Station2) : Station2 :=
  if idMatches s.id idParam && s.is_active then { s with is_active := false }
  else s

/-- `DELETE /api/stations/:id`, variant 2: no authorization middleware,
although the source comment says the action is admin-only. -/
def softDelete2 (acquireOk queryOk : Bool) (idParam : String) (db : DB2) :
    Exec Station2 DB2 :=
  if !acquireOk then
    ⟨.serverError deleteErrMsg2, db, 0, 0⟩
  else if !queryOk then
    ⟨.serverError deleteErrMsg2, db, 1, 1⟩
  else if db.rows.countP (fun s => idMatches s.id idParam && s.is_active)
      == 0 then
    ⟨.notFound (deleteNotFoundMsg idParam), db, 1, 1⟩
  else
    ⟨.okMsg (deleteOkMsg idParam),
     ⟨db.rows.map (deactivate2 idParam), db.nextId⟩, 1, 1⟩

theorem idMatches_eq_iff {rowId : Nat} {idParam : String} :
    idMatches rowId idParam = true ↔ strToNat? idParam = some rowId := by
  simp [idMatches]

theorem idMatches_inj {a b : Nat} {idParam : String}
    (ha : idMatches a idParam = true) (hb : idMatches b idParam = true) :
    a = b := by
  rw [idMatches_eq_iff] at ha hb
  rw [ha] at hb
  exact Option.some.inj hb

theorem find?_eq_some_of_unique {α : Type} (key : α → Nat) {p : α → Bool}
    {l : List α} (hpw : l.Pairwise (fun a b => key a ≠ key b))
    (hkey : ∀ a b, p a = true → p b = true → key a = key b)
    {s : α} (hs : s ∈ l) (hps : p s = true) : l.find? p = some s := by
  induction l with
  | nil => cases hs
  | cons a tl ih =>
    rcases List.pairwise_cons.mp hpw with ⟨hhead, htl⟩
    by_cases hpa : p a = true
    · have hsa : s = a := by
        rcases List.mem_cons.mp hs with h | h
        · exact h
        · exact absurd (hkey a s hpa hps) (hhead s h)
      rw [hsa]
      exact List.find?_cons_of_pos tl hpa
    · have hs' : s ∈ tl := by
        rcases List.mem_cons.mp hs with h | h
        · rw [h] at hps; exact absurd hps hpa
        · exact h
      rw [List.find?_cons_of_neg tl hpa]
      exact ih htl hs'

/-- Claim C1: evaluation of the second-variant create handler on the body
with name "Central", location "5th Ave" and the unrecognized type
"unknown", against the empty table: the handler accepts the request with
201 and persists a row whose type is "unknown".  This contradicts the
claim that such a request gets 400 and that no row with an unrecognized
type is ever written; the second variant's own TODO comment marks the
missing type validation (the first variant's guard does reject it). -/
theorem claim1_variant2_persists_unrecognized_type :
    createStation2 true true
        ⟨.vStr "Central", .vStr "5th Ave", .vStr "unknown"⟩ ⟨[], 1⟩ =
      ⟨.created 1 (.vStr "Central") (.vStr "5th Ave"),
       ⟨[⟨1, .vStr "Central", .vStr "5th Ave", .vStr "unknown", true⟩], 2⟩,
       1, 1⟩ ∧
    (createStation2 true true
        ⟨.vStr "Central", .vStr "5th Ave", .vStr "unknown"⟩
        ⟨[], 1⟩).resp.status = 201 := by
  constructor <;> rfl

/-- Claim C5: the variant-1 list endpoint returns exactly the rows whose
`is_active` is true, in the order storage returns them: the response is
the filter of the stored rows by `is_active`; membership in the result is
equivalent to being a stored active row (so no inactive station ever
appears and every active one does); and the result is a sublist of the
stored rows, preserving insertion order. -/
theorem claim5_list_active_exactly_active_rows (db : DB) :
    listActive true true true db =
      ⟨.okList (db.rows.filter (fun s => s.is_active)), db, 1, 1⟩ ∧
    (∀ s, s ∈ db.rows.filter (fun s => s.is_active) ↔
        s ∈ db.rows ∧ s.is_active = true) ∧
    (db.rows.filter (fun s => s.is_active)).Sublist db.rows := by
  refine ⟨rfl, fun s => List.mem_filter, List.filter_sublist _⟩

/-- Claim C7: the second-variant handlers register no authorization
middleware and consume no authorization data, so a create (and a
soft-delete) request without any authorization header is processed in
full: the create inserts a row and answers 201, the soft-delete
deactivates the row and answers 200 — not the claimed 401 with no
storage call.  (The variant-1 handlers do gate these routes on the
header; the second variant's own comments say an admin middleware should
be applied.) -/
theorem claim7_variant2_mutations_run_without_authorization :
    createStation2 true true
        ⟨.vStr "Central", .vStr "5th Ave", .vStr "origin"⟩ ⟨[], 1⟩ =
      ⟨.created 1 (.vStr "Central") (.vStr "5th Ave"),
       ⟨[⟨1, .vStr "Central", .vStr "5th Ave", .vStr "origin", true⟩], 2⟩,
       1, 1⟩ ∧
    softDelete2 true true "1"
        ⟨[⟨1, .vStr "Central", .vStr "5th Ave", .vStr "origin", true⟩], 2⟩ =
      ⟨.okMsg (deleteOkMsg "1"),
       ⟨[⟨1, .vStr "Central", .vStr "5th Ave", .vStr "origin", false⟩], 2⟩,
       1, 1⟩ := by
  constructor <;> rfl

/-- Claim C8: on every path of every handler of both variants — auth
rejection, validation rejection, failed connection acquisition, failed
query, not-found, and success — the number of released connections
equals the number of acquired ones, and at most one connection is used,
mirroring the `finally { if (connection) connection.release() }` blocks. -/
theorem claim8_connection_release_balanced
    (hasAuth acquireOk queryOk : Bool) (cb : CreateBody) (ub : UpdateBody)
    (idParam : String) (db : DB) (cb2 : CreateBody2) (ub2 : UpdateBody2)
    (db2 : DB2) :
    (createStation hasAuth acquireOk queryOk cb db).balanced ∧
    (listActive hasAuth acquireOk queryOk db).balanced ∧
    (getActiveById acquireOk queryOk idParam db).balanced ∧
    (updateStation hasAuth acquireOk queryOk idParam ub db).balanced ∧
    (softDelete hasAuth acquireOk queryOk idParam db).balanced ∧
    (createStation2 acquireOk queryOk cb2 db2).balanced ∧
    (listActive2 acquireOk queryOk db2).balanced ∧
    (getActiveById2 acquireOk queryOk idParam db2).balanced ∧
    (updateStation2 acquireOk queryOk idParam ub2 db2).balanced ∧
    (softDelete2 acquireOk queryOk idParam db2).balanced := by
  refine ⟨?_, ?_, ?_, ?_, ?_, ?_, ?_, ?_, ?_, ?_⟩
  · unfold createStation Exec.balanced
    repeat' split
    all_goals exact ⟨rfl, by simp⟩
  · unfold listActive Exec.balanced
    repeat' split
    all_goals exact ⟨rfl, by simp⟩
  · unfold getActiveById Exec.balanced
    repeat' split
    all_goals exact ⟨rfl, by simp⟩
  · unfold updateStation Exec.balanced
    repeat' split
    all_goals exact ⟨rfl, by simp⟩
  · unfold softDelete Exec.balanced
    repeat' split
    all_goals exact ⟨rfl, by simp⟩
  · unfold createStation2 Exec.balanced
    repeat' split
    all_goals exact ⟨rfl, by simp⟩
  · unfold listActive2 Exec.balanced
    repeat' split
    all_goals exact ⟨rfl, by simp⟩
  · unfold getActiveById2 Exec.balanced
    repeat' split
    all_goals exact ⟨rfl, by simp⟩
  · unfold updateStation2 Exec.balanced
    repeat' split
    all_goals exact ⟨rfl, by simp⟩
  · unfold softDelete2 Exec.balanced
    repeat' split
    all_goals exact ⟨rfl, by simp⟩

/-- Claim C2: for the variant-1 get-by-id, whenever every stored row
carrying the requested id is inactive — which covers both a nonexistent
id (vacuously: no row carries it) and a soft-deleted one — the handler
produces literally the same 404 response, so the two cases are
observationally indistinguishable; and when the row carrying the id is
active, the handler produces 200 with exactly that row. -/
theorem claim2_get_by_id_contract (db : DB) (idParam : String)
    (hwf : db.wf) :
    ((∀ s ∈ db.rows, idMatches s.id idParam = true → s.is_active = false) →
      getActiveById true true idParam db =
        ⟨.notFound (getNotFoundMsg idParam), db, 1, 1⟩) ∧
    (∀ s ∈ db.rows, idMatches s.id idParam = true → s.is_active = true →
      getActiveById true true idParam db = ⟨.okStation s, db, 1, 1⟩) := by
  constructor
  · intro h
    have hnone : db.rows.find?
        (fun s => idMatches s.id idParam && s.is_active) = none := by
      rw [List.find?_eq_none]
      intro x hx
      simp only [Bool.and_eq_true, not_and]
      intro hm
      simp [h x hx hm]
    simp [getActiveById, hnone]
  · intro s hs hm hact
    have hfind : db.rows.find?
        (fun s => idMatches s.id idParam && s.is_active) = some s := by
      refine find?_eq_some_of_unique Station.id hwf.2 ?_ hs ?_
      · intro a c hpa hpc
        rw [Bool.and_eq_true] at hpa hpc
        exact idMatches_inj hpa.1 hpc.1
      · rw [Bool.and_eq_true]; exact ⟨hm, hact⟩
    simp [getActiveById, hfind]

theorem claim2_get_by_id_contract_witness :
    (⟨[⟨1, .vStr "Central", .vStr "Quinta Avenida", .vNum 1, true⟩], 2⟩ :
        DB).wf ∧
    getActiveById true true "1"
        ⟨[⟨1, .vStr "Central", .vStr "Quinta Avenida", .vNum 1, true⟩], 2⟩ =
      ⟨.okStation ⟨1, .vStr "Central", .vStr "Quinta Avenida", .vNum 1, true⟩,
       ⟨[⟨1, .vStr "Central", .vStr "Quinta Avenida", .vNum 1, true⟩], 2⟩,
       1, 1⟩ :=
  ⟨by decide,
   (claim2_get_by_id_contract
      ⟨[⟨1, .vStr "Central", .vStr "Quinta Avenida", .vNum 1, true⟩], 2⟩
      "1" (by decide)).2
     ⟨1, .vStr "Central", .vStr "Quinta Avenida", .vNum 1, true⟩
     (by decide) (by decide) (by decide)⟩

theorem softDelete_notFound_of_no_active_match (db : DB) (idParam : String)
    (h : ∀ s ∈ db.rows, (idMatches s.id idParam && s.is_active) = false) :
    softDelete true true true idParam db =
      ⟨.notFound (deleteNotFoundMsg idParam), db, 1, 1⟩ := by
  have hzero : db.rows.countP
      (fun s => idMatches s.id idParam && s.is_active) = 0 :=
    List.countP_eq_zero.mpr (fun a ha => by simp [h a ha])
  simp [softDelete, hzero]

/-- Claim C3: variant-1 soft-delete.  If some stored row with the
requested id is active, the first delete answers 200 and the stored rows
become the old rows with exactly the active row(s) carrying that id
deactivated (`deactivate` leaves every other row untouched), and a second
delete of the same id answers 404 and leaves the state unchanged; if no
stored row with that id is active — the id never existed, or its row is
already inactive — the delete answers 404 and leaves the state
unchanged. -/
theorem claim3_soft_delete_idempotent (db : DB) (idParam : String) :
    ((∃ s ∈ db.rows, idMatches s.id idParam = true ∧ s.is_active = true) →
      softDelete true true true idParam db =
        ⟨.okMsg (deleteOkMsg idParam),
         ⟨db.rows.map (deactivate idParam), db.nextId⟩, 1, 1⟩ ∧
      softDelete true true true idParam
          ⟨db.rows.map (deactivate idParam), db.nextId⟩ =
        ⟨.notFound (deleteNotFoundMsg idParam),
         ⟨db.rows.map (deactivate idParam), db.nextId⟩, 1, 1⟩) ∧
    ((∀ s ∈ db.rows, idMatches s.id idParam = true → s.is_active = false) →
      softDelete true true true idParam db =
        ⟨.notFound (deleteNotFoundMsg idParam), db, 1, 1⟩) := by
  have hde : ∀ s : Station,
      (idMatches (deactivate idParam s).id idParam
        && (deactivate idParam s).is_active) = false := by
    intro s
    by_cases h : (idMatches s.id idParam && s.is_active) = true
    · simp only [deactivate, if_pos h]
      simp
    · simp only [deactivate, if_neg h]
      simpa using h
  constructor
  · rintro ⟨s, hs, hm, ha⟩
    have hpos : 0 < db.rows.countP
        (fun s => idMatches s.id idParam && s.is_active) :=
      List.countP_pos_iff.mpr ⟨s, hs, by simp [hm, ha]⟩
    have hne : (db.rows.countP
        (fun s => idMatches s.id idParam && s.is_active) == 0) = false := by
      simp [Nat.pos_iff_ne_zero.mp hpos]
    constructor
    · simp [softDelete, hne]
    · refine softDelete_notFound_of_no_active_match _ idParam ?_
      intro x hx
      rcases List.mem_map.mp hx with ⟨y, _, hy⟩
      rw [← hy]
      exact hde y
  · intro h
    refine softDelete_notFound_of_no_active_match _ idParam ?_
    intro a ha'
    by_cases hm : idMatches a.id idParam = true
    · simp [hm, h a ha' hm]
    · rw [Bool.not_eq_true] at hm
      simp [hm]

theorem claim3_soft_delete_idempotent_witness :
    (∃ s ∈ ([⟨1, .vStr "Central", .vStr "Quinta Avenida", .vNum 1, true⟩] :
        List Station), idMatches s.id "1" = true ∧ s.is_active = true) ∧
    softDelete true true true "1"
        ⟨[⟨1, .vStr "Central", .vStr "Quinta Avenida", .vNum 1, true⟩], 2⟩ =
      ⟨.okMsg (deleteOkMsg "1"),
       ⟨[⟨1, .vStr "Central", .vStr "Quinta Avenida", .vNum 1, false⟩], 2⟩,
       1, 1⟩ ∧
    softDelete true true true "1"
        ⟨[⟨1, .vStr "Central", .vStr "Quinta Avenida", .vNum 1, false⟩], 2⟩ =
      ⟨.notFound (deleteNotFoundMsg "1"),
       ⟨[⟨1, .vStr "Central", .vStr "Quinta Avenida", .vNum 1, false⟩], 2⟩,
       1, 1⟩ := by
  have h := (claim3_soft_delete_idempotent
      ⟨[⟨1, .vStr "Central", .vStr "Quinta Avenida", .vNum 1, true⟩], 2⟩
      "1").1 (by decide)
  refine ⟨by decide, ?_, ?_⟩
  · have := h.1
    simpa [deactivate] using this
  · have := h.2
    simpa [deactivate] using this

/-- Claim C4: variant-1 update with a valid body.  If some stored row
carries the requested id — active or inactive alike — the handler answers
200 and every row carrying that id has all four mutable fields
overwritten with the submitted values (`applyUpdate` is the identity on
all other rows); if no stored row carries the id, the handler answers 404
and the state is returned unchanged (no row is created). -/
theorem claim4_update_contract (db : DB) (idParam : String) (b : UpdateBody)
    (hn : b.name.truthy = true) (hl : b.location.truthy = true)
    (ht : b.type_id.truthy = true) (hb : b.is_active.isBoolean = true)
    (hv : VALID_TYPE_IDS.contains b.type_id = true) :
    ((∃ s ∈ db.rows, idMatches s.id idParam = true) →
      updateStation true true true idParam b db =
        ⟨.okMsg (updateOkMsg idParam),
         ⟨db.rows.map (applyUpdate idParam b), db.nextId⟩, 1, 1⟩) ∧
    (∀ s : Station, idMatches s.id idParam = true →
      applyUpdate idParam b s =
        ⟨s.id, b.name, b.location, b.type_id, b.is_active.asBool⟩) ∧
    (∀ s : Station, idMatches s.id idParam = false →
      applyUpdate idParam b s = s) ∧
    ((∀ s ∈ db.rows, idMatches s.id idParam = false) →
      updateStation true true true idParam b db =
        ⟨.notFound (updateNotFoundMsg idParam), db, 1, 1⟩) := by
  have hv' : b.type_id ∈ VALID_TYPE_IDS := by simpa using hv
  refine ⟨?_, ?_, ?_, ?_⟩
  · rintro ⟨s, hs, hm⟩
    have hpos : 0 < db.rows.countP (fun s => idMatches s.id idParam) :=
      List.countP_pos_iff.mpr ⟨s, hs, hm⟩
    have hne : (db.rows.countP (fun s => idMatches s.id idParam) == 0)
        = false := by
      simp [Nat.pos_iff_ne_zero.mp hpos]
    simp [updateStation, hn, hl, ht, hb, hv', hne]
  · intro s hm
    simp [applyUpdate, hm]
  · intro s hm
    simp [applyUpdate, hm]
  · intro h
    have hzero : (db.rows.countP (fun s => idMatches s.id idParam) == 0)
        = true := by
      have : db.rows.countP (fun s => idMatches s.id idParam) = 0 := by
        rw [List.countP_eq_zero]
        intro a ha'
        simp [h a ha']
      simp [this]
    simp [updateStation, hn, hl, ht, hb, hv', hzero]

theorem claim4_update_contract_witness :
    ((JsVal.vStr "Central").truthy = true ∧
     (JsVal.vStr "Quinta Avenida").truthy = true ∧
     (JsVal.vNum 2).truthy = true ∧
     (JsVal.vBool false).isBoolean = true ∧
     VALID_TYPE_IDS.contains (.vNum 2) = true) ∧
    updateStation true true true "7"
        ⟨.vStr "Central", .vStr "Quinta Avenida", .vNum 2, .vBool false⟩
        ⟨[⟨1, .vStr "Norte", .vStr "Calle 1", .vNum 1, true⟩], 2⟩ =
      ⟨.notFound (updateNotFoundMsg "7"),
       ⟨[⟨1, .vStr "Norte", .vStr "Calle 1", .vNum 1, true⟩], 2⟩, 1, 1⟩ :=
  ⟨⟨by decide, by decide, by decide, by decide, by decide⟩,
   (claim4_update_contract
      ⟨[⟨1, .vStr "Norte", .vStr "Calle 1", .vNum 1, true⟩], 2⟩ "7"
      ⟨.vStr "Central", .vStr "Quinta Avenida", .vNum 2, .vBool false⟩
      (by decide) (by decide) (by decide) (by decide) (by decide)).2.2.2
     (by decide)⟩

/-- Claim C6: round trip.  A variant-1 create with authorization, a
truthy name and location and a valid `type_id`, against a well-formed
table, answers 201 with the generated id `db.nextId` and appends exactly
the row `(db.nextId, name, location, type_id, is_active = true)`; a
subsequent get-by-id whose route parameter denotes that generated id
answers 200 with exactly that row. -/
theorem claim6_create_get_round_trip (db : DB) (b : CreateBody) (p : String)
    (hwf : db.wf) (hn : b.name.truthy = true) (hl : b.location.truthy = true)
    (ht : b.type_id.truthy = true)
    (hv : VALID_TYPE_IDS.contains b.type_id = true)
    (hp : strToNat? p = some db.nextId) :
    createStation true true true b db =
      ⟨.created db.nextId b.name b.location,
       ⟨db.rows ++ [⟨db.nextId, b.name, b.location, b.type_id, true⟩],
        db.nextId + 1⟩, 1, 1⟩ ∧
    getActiveById true true p
        ⟨db.rows ++ [⟨db.nextId, b.name, b.location, b.type_id, true⟩],
         db.nextId + 1⟩ =
      ⟨.okStation ⟨db.nextId, b.name, b.location, b.type_id, true⟩,
       ⟨db.rows ++ [⟨db.nextId, b.name, b.location, b.type_id, true⟩],
        db.nextId + 1⟩, 1, 1⟩ := by
  have hv' : b.type_id ∈ VALID_TYPE_IDS := by simpa using hv
  constructor
  · simp [createStation, hn, hl, ht, hv']
  · have hold : db.rows.find?
        (fun s => idMatches s.id p && s.is_active) = none := by
      rw [List.find?_eq_none]
      intro x hx
      have hne : x.id ≠ db.nextId := Nat.ne_of_lt (hwf.1 x hx)
      have hm : idMatches x.id p = false := by
        rw [idMatches, hp]
        simp [Ne.symm hne]
      simp [hm]
    have hnew : idMatches db.nextId p = true := idMatches_eq_iff.mpr hp
    simp [getActiveById, List.find?_append, hold, List.find?_cons, hnew]

theorem claim6_create_get_round_trip_witness :
    ((⟨[], 1⟩ : DB).wf ∧
     (JsVal.vStr "Central").truthy = true ∧
     (JsVal.vStr "Quinta Avenida").truthy = true ∧
     (JsVal.vNum 1).truthy = true ∧
     VALID_TYPE_IDS.contains (.vNum 1) = true ∧
     strToNat? "1" = some 1) ∧
    createStation true true true
        ⟨.vStr "Central", .vStr "Quinta Avenida", .vNum 1⟩ ⟨[], 1⟩ =
      ⟨.created 1 (.vStr "Central") (.vStr "Quinta Avenida"),
       ⟨[⟨1, .vStr "Central", .vStr "Quinta Avenida", .vNum 1, true⟩], 2⟩,
       1, 1⟩ ∧
    getActiveById true true "1"
        ⟨[⟨1, .vStr "Central", .vStr "Quinta Avenida", .vNum 1, true⟩], 2⟩ =
      ⟨.okStation ⟨1, .vStr "Central", .vStr "Quinta Avenida", .vNum 1, true⟩,
       ⟨[⟨1, .vStr "Central", .vStr "Quinta Avenida", .vNum 1, true⟩], 2⟩,
       1, 1⟩ := by
  have h := claim6_create_get_round_trip ⟨[], 1⟩
    ⟨.vStr "Central", .vStr "Quinta Avenida", .vNum 1⟩ "1"
    (by decide) (by decide) (by decide) (by decide) (by decide) (by decide)
  exact ⟨⟨by decide, by decide, by decide, by decide, by decide, by decide⟩,
    h.1, h.2⟩

/-- Claim C9: variant-1 type validation is strict numeric membership in
the set 1, 2, 3.  For any create or update body whose `type_id` differs
from the numbers 1, 2 and 3, the handler answers 400 and acquires no
connection (no storage call), leaving the table unchanged; in
particular the string "1" and the number 0 are not members of
`VALID_TYPE_IDS` (membership is strict, with no string-number
coercion). -/
theorem claim9_strict_type_membership (db : DB) (cb : CreateBody)
    (ub : UpdateBody) (idParam : String)
    (hc1 : cb.type_id ≠ .vNum 1) (hc2 : cb.type_id ≠ .vNum 2)
    (hc3 : cb.type_id ≠ .vNum 3)
    (hu1 : ub.type_id ≠ .vNum 1) (hu2 : ub.type_id ≠ .vNum 2)
    (hu3 : ub.type_id ≠ .vNum 3) :
    createStation true true true cb db =
      ⟨.badRequest createInvalidMsg, db, 0, 0⟩ ∧
    updateStation true true true idParam ub db =
      ⟨.badRequest updateInvalidMsg, db, 0, 0⟩ ∧
    VALID_TYPE_IDS.contains (.vStr "1") = false ∧
    VALID_TYPE_IDS.contains (.vNum 0) = false := by
  have hcc : cb.type_id ∉ VALID_TYPE_IDS := by
    simp [VALID_TYPE_IDS, hc1, hc2, hc3]
  have huc : ub.type_id ∉ VALID_TYPE_IDS := by
    simp [VALID_TYPE_IDS, hu1, hu2, hu3]
  refine ⟨?_, ?_, by decide, by decide⟩
  · simp [createStation, hcc]
  · simp [updateStation, huc]

theorem claim9_strict_type_membership_witness :
    ((JsVal.vStr "1") ≠ .vNum 1 ∧ (JsVal.vStr "1") ≠ .vNum 2 ∧
     (JsVal.vStr "1") ≠ .vNum 3 ∧ (JsVal.vNum 0) ≠ .vNum 1 ∧
     (JsVal.vNum 0) ≠ .vNum 2 ∧ (JsVal.vNum 0) ≠ .vNum 3) ∧
    createStation true true true
        ⟨.vStr "Central", .vStr "Quinta Avenida", .vStr "1"⟩ ⟨[], 1⟩ =
      ⟨.badRequest createInvalidMsg, ⟨[], 1⟩, 0, 0⟩ ∧
    updateStation true true true "1"
        ⟨.vStr "Central", .vStr "Quinta Avenida", .vNum 0, .vBool true⟩
        ⟨[], 1⟩ =
      ⟨.badRequest updateInvalidMsg, ⟨[], 1⟩, 0, 0⟩ := by
  have h := claim9_strict_type_membership ⟨[], 1⟩
    ⟨.vStr "Central", .vStr "Quinta Avenida", .vStr "1"⟩
    ⟨.vStr "Central", .vStr "Quinta Avenida", .vNum 0, .vBool true⟩ "1"
    (by decide) (by decide) (by decide) (by decide) (by decide) (by decide)
  exact ⟨⟨by decide, by decide, by decide, by decide, by decide, by decide⟩,
    h.1, h.2.1⟩

/-- Claim C10: the `:id` route parameter is never validated.  For any
parameter string (numeric or not) that matches no stored row, variant-1
get-by-id, update (with a valid body) and soft-delete all answer 404 with
the table unchanged; none of the three endpoints ever answers 400 on
account of the id (for any table and any parameter their status is never
400 once the body is valid); and a non-numeric parameter such as "abc"
has no numeric reading, so it matches no row. -/
theorem claim10_id_param_unvalidated (db : DB) (idParam : String)
    (b : UpdateBody)
    (hn : b.name.truthy = true) (hl : b.location.truthy = true)
    (ht : b.type_id.truthy = true) (hb : b.is_active.isBoolean = true)
    (hv : VALID_TYPE_IDS.contains b.type_id = true)
    (hmiss : ∀ s ∈ db.rows, idMatches s.id idParam = false) :
    getActiveById true true idParam db =
      ⟨.notFound (getNotFoundMsg idParam), db, 1, 1⟩ ∧
    updateStation true true true idParam b db =
      ⟨.notFound (updateNotFoundMsg idParam), db, 1, 1⟩ ∧
    softDelete true true true idParam db =
      ⟨.notFound (deleteNotFoundMsg idParam), db, 1, 1⟩ ∧
    (∀ (db2 : DB) (q : String),
      (getActiveById true true q db2).resp.status ≠ 400 ∧
      (updateStation true true true q b db2).resp.status ≠ 400 ∧
      (softDelete true true true q db2).resp.status ≠ 400) ∧
    strToNat? "abc" = none := by
  have hv' : b.type_id ∈ VALID_TYPE_IDS := by simpa using hv
  refine ⟨?_, ?_, ?_, ?_, by decide⟩
  · have hnone : db.rows.find?
        (fun s => idMatches s.id idParam && s.is_active) = none := by
      rw [List.find?_eq_none]
      intro x hx
      simp [hmiss x hx]
    simp [getActiveById, hnone]
  · have hzero : db.rows.countP (fun s => idMatches s.id idParam) = 0 :=
      List.countP_eq_zero.mpr (fun a ha => by simp [hmiss a ha])
    simp [updateStation, hn, hl, ht, hb, hv', hzero]
  · refine softDelete_notFound_of_no_active_match _ idParam ?_
    intro a ha
    simp [hmiss a ha]
  · intro db2 q
    refine ⟨?_, ?_, ?_⟩
    · unfold getActiveById
      repeat' split
      all_goals simp [Resp.status]
    · unfold updateStation
      repeat' split
      all_goals simp_all [Resp.status, JsVal.truthy]
    · unfold softDelete
      repeat' split
      all_goals simp [Resp.status]

theorem claim10_id_param_unvalidated_witness :
    ((JsVal.vStr "Central").truthy = true ∧
     (JsVal.vStr "Quinta Avenida").truthy = true ∧
     (JsVal.vNum 1).truthy = true ∧
     (JsVal.vBool true).isBoolean = true ∧
     VALID_TYPE_IDS.contains (.vNum 1) = true ∧
     (∀ s ∈ ([⟨1, .vStr "Norte", .vStr "Calle 1", .vNum 1, true⟩] :
        List Station), idMatches s.id "abc" = false)) ∧
    getActiveById true true "abc"
        ⟨[⟨1, .vStr "Norte", .vStr "Calle 1", .vNum 1, true⟩], 2⟩ =
      ⟨.notFound (getNotFoundMsg "abc"),
       ⟨[⟨1, .vStr "Norte", .vStr "Calle 1", .vNum 1, true⟩], 2⟩, 1, 1⟩ ∧
    softDelete true true true "abc"
        ⟨[⟨1, .vStr "Norte", .vStr "Calle 1", .vNum 1, true⟩], 2⟩ =
      ⟨.notFound (deleteNotFoundMsg "abc"),
       ⟨[⟨1, .vStr "Norte", .vStr "Calle 1", .vNum 1, true⟩], 2⟩, 1, 1⟩ := by
  have h := claim10_id_param_unvalidated
    ⟨[⟨1, .vStr "Norte", .vStr "Calle 1", .vNum 1, true⟩], 2⟩ "abc"
    ⟨.vStr "Central", .vStr "Quinta Avenida", .vNum 1, .vBool true⟩
    (by decide) (by decide) (by decide) (by decide) (by decide) (by decide)
  exact ⟨⟨by decide, by decide, by decide, by decide, by decide, by decide⟩,
    h.1, h.2.2.1⟩

end StationsService
